import Mathlib

/-!
Shallow embedding of the camera/TOTP parts of the jmatss/auth repository
(src/camera.rs, src/qr.rs, src/codes.rs), together with theorems settling
the frozen claims about it.

Conventions:
- Rust i32 values are modelled as Int, usize as Nat.
- A Rust panic (an unwrap of None / a panic on a nonzero native status) is
  modelled by an explicit constructor of the result type.
- Native calls are modelled by their observable inputs/outputs: a call that
  can fail carries its status code as an input to the model; release calls
  are recorded as trace events.
-/

namespace Auth

/-! ### camera.rs: ImageRotation (lines 32-49) -/

inductive ImageRotation where
  | Deg0
  | Deg90
  | Deg180
  | Deg270
  deriving DecidableEq, Repr

/-- `ImageRotation::from_deg` (camera.rs 40-48). Rust `45..135` range patterns
are half-open: lower bound inclusive, upper bound exclusive. -/
def ImageRotation.from_deg (rotation : Int) : ImageRotation :=
  if 45 ≤ rotation ∧ rotation < 135 then .Deg90
  else if 135 ≤ rotation ∧ rotation < 225 then .Deg180
  else if 225 ≤ rotation ∧ rotation < 315 then .Deg270
  else .Deg0

/-- Modelled from the spec: the composition step of the rotation resolver
(`(sensor_orientation − device_rotation + 360) mod 360`, spec section 4.3) is
not in src/ (it lives in the Java camera-helper class shipped as a dex blob);
only the bucketing half, `ImageRotation.from_deg`, is in src/camera.rs. -/
def resolve_rotation (sensor_orientation device_rotation : Int) : ImageRotation :=
  ImageRotation.from_deg ((sensor_orientation - device_rotation + 360) % 360)

/-! ### camera.rs: StreamConfiguration and stream-configuration selection -/

structure StreamConfiguration where
  format : Int
  width : Int
  height : Int
  deriving DecidableEq, Repr

/-- `ndk_sys::AIMAGE_FORMATS::AIMAGE_FORMAT_JPEG` = 0x100. -/
def AIMAGE_FORMAT_JPEG : Int := 256

/-- `ndk_sys::AIMAGE_FORMATS::AIMAGE_FORMAT_RAW16` = 0x20 (used only in
concrete test inputs). -/
def AIMAGE_FORMAT_RAW16 : Int := 32

/-- One iteration of the loop body in `CameraManager::get_stream_configuration`
(camera.rs 707-722): on a (format, width, height) triple, replace the candidate
when the format is JPEG and the width is strictly smaller, or when the format
is JPEG and there is no candidate yet. -/
def stream_config_step (format width height : Int)
    (stream_config : Option StreamConfiguration) : Option StreamConfiguration :=
  if format = AIMAGE_FORMAT_JPEG then
    match stream_config with
    | some s => if width < s.width then some ⟨format, width, height⟩ else some s
    | none => some ⟨format, width, height⟩
  else stream_config

/-- The loop of `CameraManager::get_stream_configuration` (camera.rs 707-722):
the metadata entry is a flat i32 array traversed with `step_by(4)`, reading
format/width/height at offsets idx+0/1/2 and ignoring the direction value at
idx+3. -/
def get_stream_configuration_loop :
    List Int → Option StreamConfiguration → Option StreamConfiguration
  | format :: width :: height :: _ :: rest, stream_config =>
      get_stream_configuration_loop rest (stream_config_step format width height stream_config)
  | _, stream_config => stream_config

/-- Result of an operation that, in the source, either produces a value or
panics (`unwrap` of `None`, or `panic!` on a nonzero status). -/
inductive PanicOr (α : Type) where
  | panicked : PanicOr α
  | ok : α → PanicOr α
  deriving DecidableEq, Repr

/-- `CameraManager::get_stream_configuration` (camera.rs 697-725): runs the
selection loop with no initial candidate and unwraps the result
(`stream_config.unwrap()` panics when no JPEG entry exists). -/
def get_stream_configuration (entries : List Int) : PanicOr StreamConfiguration :=
  match get_stream_configuration_loop entries none with
  | some s => .ok s
  | none => .panicked

/-- The (width, height) pairs of the JPEG-format entries of a flat
stream-configuration array, in traversal order (same `step_by(4)` traversal as
the selection loop). Used to state which entries the selector may pick from. -/
def jpegEntries : List Int → List (Int × Int)
  | format :: width :: height :: _ :: rest =>
      (if format = AIMAGE_FORMAT_JPEG then [(width, height)] else []) ++ jpegEntries rest
  | _ => []

/-! ### camera.rs: camera selection (lines 605-630) -/

/-- `ndk_sys::acamera_metadata_enum_acamera_lens_facing::ACAMERA_LENS_FACING_BACK` = 1
(FRONT = 0, EXTERNAL = 2). -/
def ACAMERA_LENS_FACING_BACK : Nat := 1

/-- The loop of `CameraManager::get_camera_id` (camera.rs 614-627): a camera is
a (string id, facing tag) pair; for each camera whose facing equals BACK, the
mutable `selected_camera_id` is overwritten (the loop never breaks). -/
def get_camera_id_loop (cameras : List (String × Nat)) : Option String :=
  cameras.foldl
    (fun selected_camera_id c =>
      if c.2 = ACAMERA_LENS_FACING_BACK then some c.1 else selected_camera_id)
    none

/-- `CameraManager::get_camera_id` (camera.rs 606-630): runs the selection loop
and unwraps (`selected_camera_id.unwrap()` panics when nothing matched). -/
def get_camera_id (cameras : List (String × Nat)) : PanicOr String :=
  match get_camera_id_loop cameras with
  | some camera_id => .ok camera_id
  | none => .panicked

/-! ### camera.rs: frame callback (ImageHandler, lines 60-145) -/

/-- Outcome of one `ImageHandler::on_image_available` invocation.
`skipped` is the outcome the spec asks for on a frame-level failure (return
without updating the UI); the source never produces it — it is here so the
spec's claimed behaviour is expressible alongside what the code does. -/
inductive FrameOutcome where
  | panicked
  | skipped
  | uiUpdate (width height : Int)
  deriving DecidableEq, Repr

/-- `ImageHandler::acquire_latest_image` (camera.rs 94-103): panics when the
native `AImageReader_acquireLatestImage` status is nonzero; the acquired
`Image` handle is opaque, modelled as `Unit`. -/
def acquire_latest_image (camera_status : Int) : Option Unit :=
  if camera_status ≠ 0 then none else some ()

/-- `ImageHandler::create_slint_image` (camera.rs 105-144): panics (`none`)
when the `AImage_getPlaneData` status is nonzero or the JPEG decode
(`image::load_from_memory(..).unwrap()`) fails; otherwise the output pixel
buffer dimensions come from the stream configuration, swapped for
Deg90/Deg270 (camera.rs 131-136). -/
def create_slint_image (camera_status : Int) (decode_ok : Bool)
    (sc : StreamConfiguration) (rotation : ImageRotation) : Option (Int × Int) :=
  if camera_status ≠ 0 then none
  else if ¬decode_ok then none
  else
    some (match rotation with
      | .Deg0 => (sc.width, sc.height)
      | .Deg90 => (sc.height, sc.width)
      | .Deg180 => (sc.width, sc.height)
      | .Deg270 => (sc.height, sc.width))

/-- `ImageHandler::on_image_available` (camera.rs 80-92): acquire the latest
image, convert it, hand the pixel buffer to the UI event loop. A panic in
either step aborts the process. -/
def on_image_available (acquire_status plane_status : Int) (decode_ok : Bool)
    (sc : StreamConfiguration) (rotation : ImageRotation) : FrameOutcome :=
  match acquire_latest_image acquire_status with
  | none => .panicked
  | some _ =>
    match create_slint_image plane_status decode_ok sc rotation with
    | none => .panicked
    | some (width, height) => .uiUpdate width height

/-! ### camera.rs: destruction traces

Rust drop semantics: dropping a struct first runs its `Drop::drop`, then drops
its fields in declaration order. Each model function below returns the list of
native release calls issued, in order, when the corresponding wrapper value is
dropped; `Option` parameters mirror the optional children (`Some`/`None`). -/

inductive NativeOp where
  | sessionClose
  | requestRemoveTarget
  | requestFree
  | targetFree
  | containerRemove
  | outputFree
  | containerFree
  | deviceClose
  | managerDelete
  | readerDelete
  deriving DecidableEq, Repr

/-- `impl Drop for OutputTarget` (camera.rs 502-508): `ACameraOutputTarget_free`. -/
def OutputTarget.drop : List NativeOp := [.targetFree]

/-- `impl Drop for SessionOutput` (camera.rs 523-529): `ACaptureSessionOutput_free`. -/
def SessionOutput.drop : List NativeOp := [.outputFree]

/-- `impl Drop for CaptureRequest` (camera.rs 268-277): remove the target if
present, free the request; then the `target: Option<OutputTarget>` field is
dropped. -/
def CaptureRequest.drop (has_target : Bool) : List NativeOp :=
  (if has_target then [.requestRemoveTarget] else []) ++ [.requestFree]
    ++ (if has_target then OutputTarget.drop else [])

/-- `impl Drop for CaptureSession` (camera.rs 581-587): close the session; then
the `request: Option<CaptureRequest>` field is dropped. `request_has_target`
is `some b` when the session holds a request (with `b` recording whether that
request holds a target), `none` when it holds no request. -/
def CaptureSession.drop (request_has_target : Option Bool) : List NativeOp :=
  [.sessionClose]
    ++ (match request_has_target with
        | some has_target => CaptureRequest.drop has_target
        | none => [])

/-- `impl Drop for OutputContainer` (camera.rs 474-487): remove the output if
present, explicitly drop the taken `output` field, free the container. -/
def OutputContainer.drop (has_output : Bool) : List NativeOp :=
  (if has_output then [.containerRemove] else [])
    ++ (if has_output then SessionOutput.drop else [])
    ++ [.containerFree]

/-- `impl Drop for CameraDevice` (camera.rs 231-238): explicitly drop the taken
`container: Option<OutputContainer>` field, then close the device. -/
def CameraDevice.drop (container_has_output : Option Bool) : List NativeOp :=
  (match container_has_output with
    | some has_output => OutputContainer.drop has_output
    | none => []) ++ [.deviceClose]

/-- `impl Drop for CameraManager` (camera.rs 774-780): `ACameraManager_delete`. -/
def CameraManager.drop : List NativeOp := [.managerDelete]

/-- `impl Drop for ImageReader` (camera.rs 387-396): sleeps 100 ms (not a
native release call, not traced) then `AImageReader_delete`. -/
def ImageReader.drop : List NativeOp := [.readerDelete]

/-- Dropping `CameraContext` (camera.rs 53-58): no `Drop` impl, so its fields
are dropped in declaration order: `session`, `device`, `manager`,
`image_reader`. -/
def CameraContext.drop (request_has_target : Option Bool)
    (container_has_output : Option Bool) : List NativeOp :=
  CaptureSession.drop request_has_target
    ++ CameraDevice.drop container_has_output
    ++ CameraManager.drop
    ++ ImageReader.drop

/-- The release order claimed by the spec (section 3 invariant): target
unlink, session close, container output-remove, device close, reader delete,
manager delete last. -/
def claimed_release_order : List NativeOp :=
  [.requestRemoveTarget, .sessionClose, .containerRemove, .deviceClose,
   .readerDelete, .managerDelete]

/-! ### qr.rs: start_qr_scanner (lines 17-43) -/

/-- Observable result of one `start_qr_scanner` call (qr.rs 17-43): the
returned Bool, the new contents of the process-wide
`java_camera_helper: Arc<RwLock<Option<GlobalRef>>>` slot, and whether
`request_permission` / `create_camera_helper` were invoked. The opaque
`GlobalRef` helper object is modelled as a `Nat` token. -/
structure StartQrResult where
  ret : Bool
  helper : Option Nat
  requested_permission : Bool
  created_helper : Bool
  deriving DecidableEq, Repr

/-- `start_qr_scanner` (qr.rs 17-43): if the helper slot is already occupied,
return true immediately; otherwise, without permission, request it and return
false; otherwise create the camera helper, store it in the slot, return true. -/
def start_qr_scanner (java_camera_helper : Option Nat) (has_permission : Bool)
    (new_helper : Nat) : StartQrResult :=
  match java_camera_helper with
  | some helper =>
      { ret := true, helper := some helper,
        requested_permission := false, created_helper := false }
  | none =>
      if ¬has_permission then
        { ret := false, helper := none,
          requested_permission := true, created_helper := false }
      else
        { ret := true, helper := some new_helper,
          requested_permission := false, created_helper := true }

/-! ### codes.rs: url_to_totp and handle_add

Rust `String`s are modelled as `List Char`. The TOTP value produced by the
library parse `TOTP::from_url_unchecked(url).unwrap()` is taken as the input
of the model (the otpauth-URL parser itself is the external totp-rs library,
out of scope); only the fields the embedded code reads are kept. -/

structure TOTP where
  secret : List Nat
  digits : Nat
  issuer : Option (List Char)
  account_name : List Char
  deriving DecidableEq, Repr

inductive Rfc6238Error where
  | InvalidDigits (digits : Nat)
  | SecretTooSmall (bits : Nat)
  deriving DecidableEq, Repr

inductive TotpUrlError where
  | InvalidDigits (digits : Nat)
  | SecretTooSmall (bits : Nat)
  | Issuer (issuer : List Char)
  | AccountName (name : List Char)
  deriving DecidableEq, Repr

/-- The conversion the `?` operator applies in `url_to_totp`
(totp-rs's `From<Rfc6238Error> for TotpUrlError`, external library code):
the error's identity is preserved variant-wise. -/
def TotpUrlError.from_rfc : Rfc6238Error → TotpUrlError
  | .InvalidDigits digits => .InvalidDigits digits
  | .SecretTooSmall bits => .SecretTooSmall bits

/-- `assert_digits` (codes.rs 299-305): `if !(&6..=&8).contains(&digits)`. -/
def assert_digits (digits : Nat) : Except Rfc6238Error Unit :=
  if ¬(6 ≤ digits ∧ digits ≤ 8) then .error (.InvalidDigits digits) else .ok ()

/-- `assert_secret_length` (codes.rs 309-315): fails with the bit count
`len * 8` when the secret is shorter than 10 bytes. -/
def assert_secret_length (secret : List Nat) : Except Rfc6238Error Unit :=
  if secret.length < 10 then .error (.SecretTooSmall (secret.length * 8)) else .ok ()

/-- `url_to_totp` (codes.rs 282-295), applied to the already-parsed TOTP:
check digits, then secret length, then that the issuer (when present) has no
':' character, then that the account name has no ':' character. -/
def url_to_totp (totp : TOTP) : Except TotpUrlError TOTP :=
  match assert_digits totp.digits with
  | .error e => .error (TotpUrlError.from_rfc e)
  | .ok _ =>
    match assert_secret_length totp.secret with
    | .error e => .error (TotpUrlError.from_rfc e)
    | .ok _ =>
      if totp.issuer.isSome && (totp.issuer.getD []).contains ':' then
        .error (.Issuer (totp.issuer.getD []))
      else if totp.account_name.contains ':' then
        .error (.AccountName totp.account_name)
      else
        .ok totp

/-- The `Code` row produced by `totp_to_code` (codes.rs 250-272). The source
also fills display fields (the two formatted OTP strings and the validity
window) computed from `SystemTime` and the TOTP library — out-of-scope
collaborators (spec section 1); the model keeps the identifying data. -/
structure Code where
  unique_idx : Int
  totp : TOTP
  deriving DecidableEq, Repr

def totp_to_code (unique_idx : Int) (totp : TOTP) : Code :=
  { unique_idx := unique_idx, totp := totp }

/-- Observable result of one `handle_add` call (codes.rs 86-123): the returned
Bool, the new in-memory TOTP list, the new codes model, and the normalized
URLs passed to `write_url_to_disk`. -/
structure AddResult where
  ret : Bool
  totps : List TOTP
  codes : List Code
  disk_writes : List (List Char)
  deriving DecidableEq, Repr

/-- `handle_add` (codes.rs 86-123), with the normalization `TOTP::get_url`
(external library code) passed in as `get_url`: on a successfully validated
TOTP, reject it when some stored TOTP has the same normalized URL (show an
error dialog, change nothing); otherwise write the URL to disk and append the
TOTP and its code row. On a validation error, show the error and change
nothing. -/
def handle_add (get_url : TOTP → List Char) (totps : List TOTP) (codes : List Code)
    (parsed : TOTP) (unique_idx : Int) : AddResult :=
  match url_to_totp parsed with
  | .ok totp =>
    let code := totp_to_code unique_idx totp
    let normalized_url := get_url totp
    let already_exists := totps.any fun t => get_url t == normalized_url
    if already_exists then
      { ret := false, totps := totps, codes := codes, disk_writes := [] }
    else
      { ret := true, totps := totps ++ [totp], codes := codes ++ [code],
        disk_writes := [normalized_url] }
  | .error _ =>
    { ret := false, totps := totps, codes := codes, disk_writes := [] }

/-! ## Theorems settling the claims -/

/-- C1: on a list with two back-facing cameras ("0" then "1"), `get_camera_id`
returns "1" — the LAST back-facing identifier, because the loop overwrites the
selection without breaking — contradicting both the claim and the function's
own doc comment ("Returns the first back-facing camera."), which promise the
first match, "0". -/
theorem get_camera_id_returns_last_back_facing :
    get_camera_id [("0", ACAMERA_LENS_FACING_BACK), ("1", ACAMERA_LENS_FACING_BACK)] =
      .ok "1" ∧ ("1" : String) ≠ "0" := by
  decide

/-- C2 counterexample: restricted to the six release operations named by the
claim, the trace of dropping a fully built `CameraContext` is NOT the claimed
order (target unlink, session close, container output-remove, device close,
reader delete, manager delete): the session is closed before the target is
unlinked, and the manager is deleted before the image reader. -/
theorem cameraContext_drop_not_claimed_order :
    (CameraContext.drop (some true) (some true)).filter
        (fun op => claimed_release_order.contains op) ≠
      claimed_release_order := by
  decide

/-- C2 (amended): dropping a fully built `CameraContext` issues the native
release calls in this order: session close; request target unlink, request
free, target free; container output-remove, session-output free, container
free; device close; manager delete; image reader delete last. -/
theorem cameraContext_drop_trace :
    CameraContext.drop (some true) (some true) =
      [.sessionClose, .requestRemoveTarget, .requestFree, .targetFree,
       .containerRemove, .outputFree, .containerFree, .deviceClose,
       .managerDelete, .readerDelete] := by
  decide

/-- C3 counterexample: a frame callback whose image acquire fails (nonzero
native status −1) panics — it does not take the claimed logged-return-without-
UI-update (`skipped`) outcome, so the failure terminates the process. -/
theorem on_image_available_panics_on_acquire_failure :
    on_image_available (-1) 0 true ⟨AIMAGE_FORMAT_JPEG, 640, 480⟩ .Deg0 =
      .panicked ∧ FrameOutcome.panicked ≠ .skipped := by
  decide

/-- C3 (amended): whenever the single image acquire, the plane-data fetch, or
the convert/decode step of a frame callback fails, `on_image_available`
panics, aborting the process (the failure is never logged-and-skipped). -/
theorem on_image_available_failure_panics :
    ∀ (acquire_status plane_status : Int) (decode_ok : Bool)
      (sc : StreamConfiguration) (rotation : ImageRotation),
      (acquire_status ≠ 0 ∨ plane_status ≠ 0 ∨ decode_ok = false) →
      on_image_available acquire_status plane_status decode_ok sc rotation =
        .panicked := by
  intro a p d sc rotation h
  simp only [on_image_available, acquire_latest_image, create_slint_image]
  by_cases ha : a = 0 <;> by_cases hp : p = 0 <;>
    rcases h with h | h | h <;> simp_all

/-- Witness for the amended C3 theorem at a concrete failing input. -/
theorem on_image_available_failure_panics_witness :
    ((-1 : Int) ≠ 0 ∨ (0 : Int) ≠ 0 ∨ true = false) ∧
      on_image_available (-1) 0 true ⟨AIMAGE_FORMAT_JPEG, 640, 480⟩ .Deg90 =
        .panicked :=
  ⟨by decide,
   on_image_available_failure_panics (-1) 0 true ⟨AIMAGE_FORMAT_JPEG, 640, 480⟩
     .Deg90 (by decide)⟩

/-- C7: when the process-wide camera-helper slot is already occupied, a second
`start_qr_scanner` call returns true immediately, leaves the slot's contents
unchanged, and neither requests permission nor creates a second helper
(resource graph). -/
theorem start_qr_scanner_idempotent :
    ∀ (helper : Nat) (has_permission : Bool) (new_helper : Nat),
      start_qr_scanner (some helper) has_permission new_helper =
        { ret := true, helper := some helper,
          requested_permission := false, created_helper := false } := by
  intro helper has_permission new_helper
  rfl

/-- C8: a successful frame callback produces a pixel buffer whose dimensions
are the stream configuration's, swapped exactly for the Deg90/Deg270 buckets;
in particular a 640×480 configuration yields 480×640 under Deg90 and an
unchanged 640×480 under Deg0 and Deg180. -/
theorem on_image_available_dims :
    (∀ (sc : StreamConfiguration) (rotation : ImageRotation),
      on_image_available 0 0 true sc rotation =
        .uiUpdate
          (match rotation with
            | .Deg90 | .Deg270 => sc.height
            | _ => sc.width)
          (match rotation with
            | .Deg90 | .Deg270 => sc.width
            | _ => sc.height)) ∧
    on_image_available 0 0 true ⟨AIMAGE_FORMAT_JPEG, 640, 480⟩ .Deg90 =
      .uiUpdate 480 640 ∧
    on_image_available 0 0 true ⟨AIMAGE_FORMAT_JPEG, 640, 480⟩ .Deg0 =
      .uiUpdate 640 480 ∧
    on_image_available 0 0 true ⟨AIMAGE_FORMAT_JPEG, 640, 480⟩ .Deg180 =
      .uiUpdate 640 480 := by
  refine ⟨?_, by decide, by decide, by decide⟩
  intro sc rotation
  cases rotation <;> rfl

/-- C5: for every angle in 0..360 the resolver buckets it into the four
90-degree ranges with boundaries at 45/135/225/315 (45..135 to Deg90, 135..225
to Deg180, 225..315 to Deg270, the remainder to Deg0), and composed with
`(sensor_orientation − device_rotation + 360) mod 360`,
`resolve_rotation 90 0 = Deg90` and `resolve_rotation 0 270 = Deg90`. -/
theorem resolve_rotation_buckets :
    (∀ r : Int, 45 ≤ r → r < 135 → ImageRotation.from_deg r = .Deg90) ∧
    (∀ r : Int, 135 ≤ r → r < 225 → ImageRotation.from_deg r = .Deg180) ∧
    (∀ r : Int, 225 ≤ r → r < 315 → ImageRotation.from_deg r = .Deg270) ∧
    (∀ r : Int, 0 ≤ r → r < 360 → ¬(45 ≤ r ∧ r < 315) →
      ImageRotation.from_deg r = .Deg0) ∧
    resolve_rotation 90 0 = .Deg90 ∧
    resolve_rotation 0 270 = .Deg90 := by
  refine ⟨?_, ?_, ?_, ?_, by decide, by decide⟩ <;>
    · intro r h1 h2
      first
        | (intro h3
           unfold ImageRotation.from_deg
           split_ifs <;> first | rfl | omega)
        | (unfold ImageRotation.from_deg
           split_ifs <;> first | rfl | omega)

/-- Witness for the C5 theorem at concrete angles in each bucket. -/
theorem resolve_rotation_buckets_witness :
    ((45 : Int) ≤ 90 ∧ (90 : Int) < 135 ∧ ImageRotation.from_deg 90 = .Deg90) ∧
    ((135 : Int) ≤ 180 ∧ (180 : Int) < 225 ∧ ImageRotation.from_deg 180 = .Deg180) ∧
    ((225 : Int) ≤ 270 ∧ (270 : Int) < 315 ∧ ImageRotation.from_deg 270 = .Deg270) ∧
    ((0 : Int) ≤ 330 ∧ (330 : Int) < 360 ∧ ¬((45 : Int) ≤ 330 ∧ (330 : Int) < 315) ∧
      ImageRotation.from_deg 330 = .Deg0) :=
  ⟨⟨by decide, by decide, resolve_rotation_buckets.1 90 (by decide) (by decide)⟩,
   ⟨by decide, by decide, resolve_rotation_buckets.2.1 180 (by decide) (by decide)⟩,
   ⟨by decide, by decide, resolve_rotation_buckets.2.2.1 270 (by decide) (by decide)⟩,
   ⟨by decide, by decide, by decide,
    resolve_rotation_buckets.2.2.2.1 330 (by decide) (by decide) (by decide)⟩⟩

/-- The selection loop of `get_camera_id` keeps `None` when no camera's facing
tag is BACK. -/
theorem get_camera_id_loop_none :
    ∀ cameras : List (String × Nat),
      (∀ c ∈ cameras, c.2 ≠ ACAMERA_LENS_FACING_BACK) →
      get_camera_id_loop cameras = none := by
  intro cameras
  induction cameras with
  | nil => intro _; rfl
  | cons c cs ih =>
    intro h
    unfold get_camera_id_loop at ih ⊢
    simp only [List.foldl_cons]
    rw [if_neg (h c (List.mem_cons_self c cs))]
    exact ih fun x hx => h x (List.mem_cons_of_mem c hx)

/-- C6 counterexample: with a single front-facing camera (facing tag 0), no
camera matches the back-facing policy, and `get_camera_id` panics (the
`unwrap()` of `None`) — it does not return a typed `NoMatchingCamera` error
(no error type exists in the source). -/
theorem get_camera_id_panics_no_match_example :
    get_camera_id [("0", 0)] = .panicked := by
  decide

/-- C6 (amended): whenever no available camera's facing tag equals the
back-facing policy, `get_camera_id` panics via `unwrap()` of `None` instead of
returning a typed error to its caller. -/
theorem get_camera_id_panics_when_no_back_facing :
    ∀ cameras : List (String × Nat),
      (∀ c ∈ cameras, c.2 ≠ ACAMERA_LENS_FACING_BACK) →
      get_camera_id cameras = .panicked := by
  intro cameras h
  unfold get_camera_id
  rw [get_camera_id_loop_none cameras h]

/-- Witness for the amended C6 theorem on a concrete two-camera list (one
front-facing, one external). -/
theorem get_camera_id_panics_when_no_back_facing_witness :
    (∀ c ∈ [(("front" : String), 0), (("ext" : String), 2)],
      c.2 ≠ ACAMERA_LENS_FACING_BACK) ∧
    get_camera_id [(("front" : String), 0), (("ext" : String), 2)] = .panicked :=
  ⟨by decide,
   get_camera_id_panics_when_no_back_facing
     [(("front" : String), 0), (("ext" : String), 2)] (by decide)⟩

/-- Shared shape of the stream-selection loop's base cases (fewer than four
remaining array values): the loop returns its accumulator unchanged and there
are no JPEG entries. -/
theorem stream_loop_base {entries : List Int} {sc : Option StreamConfiguration}
    (hloop : get_stream_configuration_loop entries sc = sc)
    (hjpeg : jpegEntries entries = []) :
    (get_stream_configuration_loop entries sc = none →
      sc = none ∧ jpegEntries entries = []) ∧
    (∀ c, get_stream_configuration_loop entries sc = some c →
      (sc = some c ∨
        (c.format = AIMAGE_FORMAT_JPEG ∧ (c.width, c.height) ∈ jpegEntries entries)) ∧
      (∀ s, sc = some s → c.width ≤ s.width) ∧
      (∀ p ∈ jpegEntries entries, c.width ≤ p.1)) := by
  rw [hloop, hjpeg]
  constructor
  · exact fun h => ⟨h, rfl⟩
  · intro c hc
    refine ⟨Or.inl hc, ?_, by simp⟩
    intro s hs
    rw [hc] at hs
    obtain rfl : c = s := Option.some.inj hs
    exact le_refl _

/-- Invariant of the stream-selection loop relative to an arbitrary
accumulator: the result is the accumulator itself or some scanned JPEG entry,
its width never exceeds the accumulator's, and it is at most the width of
every scanned JPEG entry. -/
theorem get_stream_configuration_loop_spec :
    ∀ (entries : List Int) (sc : Option StreamConfiguration),
      (get_stream_configuration_loop entries sc = none →
        sc = none ∧ jpegEntries entries = []) ∧
      (∀ c, get_stream_configuration_loop entries sc = some c →
        (sc = some c ∨
          (c.format = AIMAGE_FORMAT_JPEG ∧ (c.width, c.height) ∈ jpegEntries entries)) ∧
        (∀ s, sc = some s → c.width ≤ s.width) ∧
        (∀ p ∈ jpegEntries entries, c.width ≤ p.1))
  | [], _ => stream_loop_base rfl rfl
  | [_], _ => stream_loop_base rfl rfl
  | [_, _], _ => stream_loop_base rfl rfl
  | [_, _, _], _ => stream_loop_base rfl rfl
  | f :: w :: h :: d :: rest, sc => by
    have ih := get_stream_configuration_loop_spec rest (stream_config_step f w h sc)
    by_cases hf : f = AIMAGE_FORMAT_JPEG
    case neg =>
      have hstep : stream_config_step f w h sc = sc := by
        simp [stream_config_step, hf]
      rw [hstep] at ih
      have hlp : get_stream_configuration_loop (f :: w :: h :: d :: rest) sc =
          get_stream_configuration_loop rest sc := by
        show get_stream_configuration_loop rest (stream_config_step f w h sc) = _
        rw [hstep]
      have hjp : jpegEntries (f :: w :: h :: d :: rest) = jpegEntries rest := by
        show (if f = AIMAGE_FORMAT_JPEG then [(w, h)] else []) ++ jpegEntries rest = _
        rw [if_neg hf, List.nil_append]
      rw [hlp, hjp]
      exact ih
    case pos =>
      have hjp : jpegEntries (f :: w :: h :: d :: rest) = (w, h) :: jpegEntries rest := by
        show (if f = AIMAGE_FORMAT_JPEG then [(w, h)] else []) ++ jpegEntries rest = _
        rw [if_pos hf, List.singleton_append]
      cases sc with
      | none =>
        have hstep : stream_config_step f w h none = some ⟨f, w, h⟩ := by
          simp [stream_config_step, hf]
        rw [hstep] at ih
        have hlp : get_stream_configuration_loop (f :: w :: h :: d :: rest) none =
            get_stream_configuration_loop rest (some ⟨f, w, h⟩) := by
          show get_stream_configuration_loop rest (stream_config_step f w h none) = _
          rw [hstep]
        rw [hlp, hjp]
        constructor
        · intro hnone
          exact absurd (ih.1 hnone).1 (by simp)
        · intro c hc
          obtain ⟨hA, hB, hC⟩ := ih.2 c hc
          refine ⟨?_, ?_, ?_⟩
          · rcases hA with hA | ⟨hf2, hm⟩
            · obtain rfl : (⟨f, w, h⟩ : StreamConfiguration) = c := Option.some.inj hA
              exact Or.inr ⟨hf, by simp⟩
            · exact Or.inr ⟨hf2, by simp [hm]⟩
          · intro s hs
            simp at hs
          · intro p hp
            rcases List.mem_cons.mp hp with rfl | hp
            · simpa using hB ⟨f, w, h⟩ rfl
            · exact hC p hp
      | some s0 =>
        by_cases hw : w < s0.width
        case pos =>
          have hstep : stream_config_step f w h (some s0) = some ⟨f, w, h⟩ := by
            simp [stream_config_step, hf, hw]
          rw [hstep] at ih
          have hlp : get_stream_configuration_loop (f :: w :: h :: d :: rest) (some s0) =
              get_stream_configuration_loop rest (some ⟨f, w, h⟩) := by
            show get_stream_configuration_loop rest (stream_config_step f w h (some s0)) = _
            rw [hstep]
          rw [hlp, hjp]
          constructor
          · intro hnone
            exact absurd (ih.1 hnone).1 (by simp)
          · intro c hc
            obtain ⟨hA, hB, hC⟩ := ih.2 c hc
            have hcw : c.width ≤ w := by simpa using hB ⟨f, w, h⟩ rfl
            refine ⟨?_, ?_, ?_⟩
            · rcases hA with hA | ⟨hf2, hm⟩
              · obtain rfl : (⟨f, w, h⟩ : StreamConfiguration) = c := Option.some.inj hA
                exact Or.inr ⟨hf, by simp⟩
              · exact Or.inr ⟨hf2, by simp [hm]⟩
            · intro s hs
              obtain rfl : s0 = s := Option.some.inj hs
              omega
            · intro p hp
              rcases List.mem_cons.mp hp with rfl | hp
              · simpa using hcw
              · exact hC p hp
        case neg =>
          have hstep : stream_config_step f w h (some s0) = some s0 := by
            simp [stream_config_step, hf, hw]
          rw [hstep] at ih
          have hlp : get_stream_configuration_loop (f :: w :: h :: d :: rest) (some s0) =
              get_stream_configuration_loop rest (some s0) := by
            show get_stream_configuration_loop rest (stream_config_step f w h (some s0)) = _
            rw [hstep]
          rw [hlp, hjp]
          constructor
          · intro hnone
            exact absurd (ih.1 hnone).1 (by simp)
          · intro c hc
            obtain ⟨hA, hB, hC⟩ := ih.2 c hc
            have hcw : c.width ≤ s0.width := hB s0 rfl
            refine ⟨?_, ?_, ?_⟩
            · rcases hA with hA | ⟨hf2, hm⟩
              · exact Or.inl hA
              · exact Or.inr ⟨hf2, by simp [hm]⟩
            · intro s hs
              obtain rfl : s0 = s := Option.some.inj hs
              exact hcw
            · intro p hp
              rcases List.mem_cons.mp hp with rfl | hp
              · show c.width ≤ w
                omega
              · exact hC p hp

/-- C4: whenever the flat stream-configuration array contains at least one
JPEG entry, `get_stream_configuration` returns a JPEG entry of the array whose
width is smallest among all JPEG entries (RAW and other formats ignored); in
particular on [(JPEG,1920,1080),(JPEG,640,480),(RAW16,4000,3000)] it returns
(JPEG,640,480). -/
theorem get_stream_configuration_min_jpeg :
    (∀ entries : List Int, jpegEntries entries ≠ [] →
      ∃ s, get_stream_configuration entries = .ok s ∧
        s.format = AIMAGE_FORMAT_JPEG ∧
        (s.width, s.height) ∈ jpegEntries entries ∧
        ∀ p ∈ jpegEntries entries, s.width ≤ p.1) ∧
    get_stream_configuration
        [AIMAGE_FORMAT_JPEG, 1920, 1080, 0,
         AIMAGE_FORMAT_JPEG, 640, 480, 0,
         AIMAGE_FORMAT_RAW16, 4000, 3000, 0] =
      .ok ⟨AIMAGE_FORMAT_JPEG, 640, 480⟩ := by
  constructor
  · intro entries hne
    have hspec := get_stream_configuration_loop_spec entries none
    unfold get_stream_configuration
    cases hl : get_stream_configuration_loop entries none with
    | none => exact absurd (hspec.1 hl).2 hne
    | some c =>
      obtain ⟨hA, _, hC⟩ := hspec.2 c hl
      rcases hA with hA | ⟨hfmt, hmem⟩
      · simp at hA
      · exact ⟨c, rfl, hfmt, hmem, hC⟩
  · decide

/-- Witness for the C4 theorem on a concrete two-JPEG-entry array. -/
theorem get_stream_configuration_min_jpeg_witness :
    jpegEntries
        [AIMAGE_FORMAT_JPEG, 1920, 1080, 0, AIMAGE_FORMAT_JPEG, 640, 480, 0] ≠ [] ∧
    ∃ s, get_stream_configuration
          [AIMAGE_FORMAT_JPEG, 1920, 1080, 0, AIMAGE_FORMAT_JPEG, 640, 480, 0] =
        .ok s ∧
      s.format = AIMAGE_FORMAT_JPEG ∧
      (s.width, s.height) ∈
        jpegEntries [AIMAGE_FORMAT_JPEG, 1920, 1080, 0, AIMAGE_FORMAT_JPEG, 640, 480, 0] ∧
      ∀ p ∈ jpegEntries [AIMAGE_FORMAT_JPEG, 1920, 1080, 0, AIMAGE_FORMAT_JPEG, 640, 480, 0],
        s.width ≤ p.1 :=
  ⟨by decide, get_stream_configuration_min_jpeg.1 _ (by decide)⟩

theorem assert_digits_ok (digits : Nat) (h : 6 ≤ digits ∧ digits ≤ 8) :
    assert_digits digits = .ok () := by
  unfold assert_digits
  rw [if_neg (not_not_intro h)]

theorem assert_digits_err (digits : Nat) (h : ¬(6 ≤ digits ∧ digits ≤ 8)) :
    assert_digits digits = .error (.InvalidDigits digits) := by
  unfold assert_digits
  rw [if_pos h]

theorem assert_secret_length_ok (secret : List Nat) (h : ¬secret.length < 10) :
    assert_secret_length secret = .ok () := by
  unfold assert_secret_length
  rw [if_neg h]

theorem assert_secret_length_err (secret : List Nat) (h : secret.length < 10) :
    assert_secret_length secret = .error (.SecretTooSmall (secret.length * 8)) := by
  unfold assert_secret_length
  rw [if_pos h]

/-- C9: for every TOTP the library parses, `url_to_totp` succeeds exactly when
the secret is at least 10 bytes, the digit count is 6..8, the issuer (when
present) has no ':' and the account name has no ':'; each single violation
yields the corresponding typed error (InvalidDigits / SecretTooSmall /
Issuer / AccountName), checked in that order. -/
theorem url_to_totp_ok_iff :
    (∀ t : TOTP, (∃ r, url_to_totp t = .ok r) ↔
      (6 ≤ t.digits ∧ t.digits ≤ 8 ∧ 10 ≤ t.secret.length ∧
       (∀ i, t.issuer = some i → i.contains ':' = false) ∧
       t.account_name.contains ':' = false)) ∧
    (∀ t : TOTP, ¬(6 ≤ t.digits ∧ t.digits ≤ 8) →
      url_to_totp t = .error (.InvalidDigits t.digits)) ∧
    (∀ t : TOTP, (6 ≤ t.digits ∧ t.digits ≤ 8) → t.secret.length < 10 →
      url_to_totp t = .error (.SecretTooSmall (t.secret.length * 8))) ∧
    (∀ (t : TOTP) (i : List Char), (6 ≤ t.digits ∧ t.digits ≤ 8) →
      10 ≤ t.secret.length → t.issuer = some i → i.contains ':' = true →
      url_to_totp t = .error (.Issuer i)) ∧
    (∀ t : TOTP, (6 ≤ t.digits ∧ t.digits ≤ 8) → 10 ≤ t.secret.length →
      (∀ i, t.issuer = some i → i.contains ':' = false) →
      t.account_name.contains ':' = true →
      url_to_totp t = .error (.AccountName t.account_name)) := by
  have herr_digits : ∀ t : TOTP, ¬(6 ≤ t.digits ∧ t.digits ≤ 8) →
      url_to_totp t = .error (.InvalidDigits t.digits) := by
    intro t hd
    unfold url_to_totp
    rw [assert_digits_err _ hd]
    rfl
  have herr_secret : ∀ t : TOTP, (6 ≤ t.digits ∧ t.digits ≤ 8) →
      t.secret.length < 10 →
      url_to_totp t = .error (.SecretTooSmall (t.secret.length * 8)) := by
    intro t hd hs
    unfold url_to_totp
    rw [assert_digits_ok _ hd, assert_secret_length_err _ hs]
    rfl
  have herr_issuer : ∀ (t : TOTP) (i : List Char), (6 ≤ t.digits ∧ t.digits ≤ 8) →
      10 ≤ t.secret.length → t.issuer = some i → i.contains ':' = true →
      url_to_totp t = .error (.Issuer i) := by
    intro t i hd hs hiss hic
    unfold url_to_totp
    rw [assert_digits_ok _ hd, assert_secret_length_ok _ (by omega), hiss]
    have hmem : ':' ∈ i := by simpa using hic
    simp [hmem]
  have herr_account : ∀ t : TOTP, (6 ≤ t.digits ∧ t.digits ≤ 8) →
      10 ≤ t.secret.length →
      (∀ i, t.issuer = some i → i.contains ':' = false) →
      t.account_name.contains ':' = true →
      url_to_totp t = .error (.AccountName t.account_name) := by
    intro t hd hs hi ha
    unfold url_to_totp
    rw [assert_digits_ok _ hd, assert_secret_length_ok _ (by omega)]
    have hamem : ':' ∈ t.account_name := by simpa using ha
    cases hiss : t.issuer with
    | none => simp [hamem]
    | some i =>
      have hni : ':' ∉ i := by simpa using hi i hiss
      simp [hni, hamem]
  have hok : ∀ t : TOTP, (6 ≤ t.digits ∧ t.digits ≤ 8) → 10 ≤ t.secret.length →
      (∀ i, t.issuer = some i → i.contains ':' = false) →
      t.account_name.contains ':' = false →
      url_to_totp t = .ok t := by
    intro t hd hs hi ha
    unfold url_to_totp
    rw [assert_digits_ok _ hd, assert_secret_length_ok _ (by omega)]
    have hamem : ':' ∉ t.account_name := by simpa using ha
    cases hiss : t.issuer with
    | none => simp [hamem]
    | some i =>
      have hni : ':' ∉ i := by simpa using hi i hiss
      simp [hni, hamem]
  refine ⟨?_, herr_digits, herr_secret, herr_issuer, herr_account⟩
  intro t
  constructor
  · rintro ⟨r, hr⟩
    by_cases hd : 6 ≤ t.digits ∧ t.digits ≤ 8
    · by_cases hs : 10 ≤ t.secret.length
      · by_cases hi : ∀ i, t.issuer = some i → i.contains ':' = false
        · by_cases ha : t.account_name.contains ':' = false
          · exact ⟨hd.1, hd.2, hs, hi, ha⟩
          · rw [herr_account t hd hs hi (by simpa using ha)] at hr
            simp at hr
        · push_neg at hi
          obtain ⟨i, hiss, hic⟩ := hi
          rw [herr_issuer t i hd hs hiss (by simpa using hic)] at hr
          simp at hr
      · rw [herr_secret t hd (by omega)] at hr
        simp at hr
    · rw [herr_digits t hd] at hr
      simp at hr
  · rintro ⟨h1, h2, h3, h4, h5⟩
    exact ⟨t, hok t ⟨h1, h2⟩ h3 h4 h5⟩

/-- Witness for the C9 theorem: each checked violation at a concrete TOTP. -/
theorem url_to_totp_ok_iff_witness :
    (¬(6 ≤ 9 ∧ 9 ≤ 8)) ∧
    url_to_totp ⟨List.replicate 10 0, 9, none, ['b']⟩ =
      .error (.InvalidDigits 9) ∧
    url_to_totp ⟨List.replicate 5 0, 6, none, ['b']⟩ =
      .error (.SecretTooSmall ((List.replicate 5 (0 : Nat)).length * 8)) ∧
    url_to_totp ⟨List.replicate 10 0, 6, some [':'], ['b']⟩ =
      .error (.Issuer [':']) ∧
    url_to_totp ⟨List.replicate 10 0, 6, none, ['b', ':']⟩ =
      .error (.AccountName ['b', ':']) :=
  ⟨by decide,
   url_to_totp_ok_iff.2.1 ⟨List.replicate 10 0, 9, none, ['b']⟩ (by decide),
   url_to_totp_ok_iff.2.2.1 ⟨List.replicate 5 0, 6, none, ['b']⟩ (by decide) (by decide),
   url_to_totp_ok_iff.2.2.2.1 ⟨List.replicate 10 0, 6, some [':'], ['b']⟩ [':']
     (by decide) (by decide) rfl (by decide),
   url_to_totp_ok_iff.2.2.2.2 ⟨List.replicate 10 0, 6, none, ['b', ':']⟩
     (by decide) (by decide) (by simp) (by decide)⟩

/-- C10: for every add request whose TOTP validates, `handle_add` returns
false and leaves the TOTP list, the codes model and the disk untouched when
some stored TOTP has the same normalized URL, and returns true appending
exactly one TOTP and one code row (writing the URL to disk) otherwise. -/
theorem handle_add_spec :
    ∀ (get_url : TOTP → List Char) (totps : List TOTP) (codes : List Code)
      (parsed totp : TOTP) (unique_idx : Int),
      url_to_totp parsed = .ok totp →
      ((∃ t ∈ totps, get_url t = get_url totp) →
        handle_add get_url totps codes parsed unique_idx =
          { ret := false, totps := totps, codes := codes, disk_writes := [] }) ∧
      ((∀ t ∈ totps, get_url t ≠ get_url totp) →
        handle_add get_url totps codes parsed unique_idx =
          { ret := true, totps := totps ++ [totp],
            codes := codes ++ [totp_to_code unique_idx totp],
            disk_writes := [get_url totp] }) := by
  intro get_url totps codes parsed totp unique_idx hok
  constructor
  · intro h
    have hany : (totps.any fun t => get_url t == get_url totp) = true := by
      obtain ⟨t, ht, he⟩ := h
      exact List.any_eq_true.mpr ⟨t, ht, by simpa using he⟩
    simp [handle_add, hok, hany]
  · intro h
    have hany : (totps.any fun t => get_url t == get_url totp) = false := by
      by_contra hc
      rw [Bool.not_eq_false] at hc
      obtain ⟨t, ht, he⟩ := List.any_eq_true.mp hc
      exact h t ht (by simpa using he)
    simp [handle_add, hok, hany]

/-- Witness for the C10 theorem: a duplicate add is rejected with nothing
changed; an add into an empty store appends exactly one entry. -/
theorem handle_add_spec_witness :
    url_to_totp ⟨List.replicate 10 0, 6, none, ['b']⟩ =
      .ok ⟨List.replicate 10 0, 6, none, ['b']⟩ ∧
    handle_add (fun t => t.account_name) [⟨List.replicate 10 0, 6, none, ['b']⟩] []
        ⟨List.replicate 10 0, 6, none, ['b']⟩ 1 =
      { ret := false, totps := [⟨List.replicate 10 0, 6, none, ['b']⟩],
        codes := [], disk_writes := [] } ∧
    handle_add (fun t => t.account_name) [] []
        ⟨List.replicate 10 0, 6, none, ['b']⟩ 0 =
      { ret := true, totps := [] ++ [⟨List.replicate 10 0, 6, none, ['b']⟩],
        codes := [] ++ [totp_to_code 0 ⟨List.replicate 10 0, 6, none, ['b']⟩],
        disk_writes := [['b']] } :=
  ⟨by rfl,
   (handle_add_spec (fun t => t.account_name)
       [⟨List.replicate 10 0, 6, none, ['b']⟩] []
       ⟨List.replicate 10 0, 6, none, ['b']⟩
       ⟨List.replicate 10 0, 6, none, ['b']⟩ 1 (by rfl)).1
     ⟨⟨List.replicate 10 0, 6, none, ['b']⟩, by simp, rfl⟩,
   (handle_add_spec (fun t => t.account_name) [] []
       ⟨List.replicate 10 0, 6, none, ['b']⟩
       ⟨List.replicate 10 0, 6, none, ['b']⟩ 0 (by rfl)).2
     (by simp)⟩

end Auth
